import Mathlib

/-!
Verification of the reconciliation core of `DockerDir/solar_bridge.py`.

The script polls a Hoymiles DTU gateway, reconciles noisy counters against a
process-wide `last_valid_total_wh`, and republishes a payload over MQTT.  The
embedding below mirrors the module-level startup code, the `on_message`
recovery handler, and the main-loop body.  Machine integers are modelled as
`Int` (Python ints are unbounded), Python floats as `ℚ` (only sums and
comparisons occur, no rounding-sensitive arithmetic).
-/

namespace SolarBridge

/-- One per-inverter record of `plant_data.inverters` (hoymiles_modbus). -/
structure InverterReading where
  serial_number : String
  port_number : Int
  pv_power : ℚ
  total_production : Int
  alarm_code : Int
  alarm_count : Int
  operating_status : Int
  deriving Repr, DecidableEq

/-- The `plant_data` snapshot returned by `HoymilesModbusTCP(...).plant_data`. -/
structure PlantData where
  total_production : Int
  pv_power : ℚ
  alarm_flag : Bool
  inverters : List InverterReading
  deriving Repr, DecidableEq

/-- One entry of the `active_alarms` list built in the alarm loop
(lines 132-143 of `solar_bridge.py`). -/
structure AlarmRecord where
  serial_number : String
  port : Int
  alarm_code : Int
  operating_status : Int
  deriving Repr, DecidableEq

/-- The alarm loop: for each inverter in enumeration order, append a record
exactly when `alarm_code > 0` (lines 133-143). -/
def active_alarms : List InverterReading → List AlarmRecord
  | [] => []
  | inv :: rest =>
      if inv.alarm_code > 0 then
        { serial_number := inv.serial_number
          port := inv.port_number
          alarm_code := inv.alarm_code
          operating_status := inv.operating_status } :: active_alarms rest
      else
        active_alarms rest

/-- Line 158: `calculated_total = int(sum(inverter.total_production for inverter ...))`. -/
def calculated_total (pd : PlantData) : Int :=
  (pd.inverters.map (fun inv => inv.total_production)).sum

/-- Lines 160-166, the source fallback: returns `(current_total_wh, source)`. -/
def fallback (pd : PlantData) : Int × String :=
  if pd.total_production > 0 then
    (pd.total_production, "DTU")
  else
    (calculated_total pd, "CALC")

/-- Lines 168-173, the memory check: given the selected `current_total_wh` and
`last_valid_total_wh`, returns `(published total, new last_valid_total_wh,
glitch logged?)`.  On `current < last` the candidate is discarded and the
"Glitch detected" message is printed (modelled by the Bool). -/
def memory_check (current last : Int) : Int × Int × Bool :=
  if current < last then (last, last, true) else (current, current, false)

/-- Line 177: `calc_power = float(sum(inverter.pv_power for inverter ...))`. -/
def calc_power (pd : PlantData) : ℚ :=
  (pd.inverters.map (fun inv => inv.pv_power)).sum

/-- Lines 179-182, the power check. -/
def power_check (dtu_power c_power : ℚ) : ℚ :=
  if dtu_power = 0 ∧ c_power > 0 then c_power else dtu_power

/-- The JSON payload assembled at lines 185-191. -/
structure Payload where
  current_power_w : ℚ
  total_production_wh : Int
  alarm_flag : Bool
  active_alarms : List AlarmRecord
  debug_source : String
  deriving Repr, DecidableEq

/-- One successful cycle of the main loop, lines 132-191: given the snapshot
and the prior `last_valid_total_wh`, produce the new `last_valid_total_wh`
and the payload. -/
def reconcile (pd : PlantData) (last_valid_total_wh : Int) : Int × Payload :=
  let fb := fallback pd
  let mc := memory_check fb.1 last_valid_total_wh
  let final_power := power_check pd.pv_power (calc_power pd)
  (mc.2.1,
   { current_power_w := final_power
     total_production_wh := mc.1
     alarm_flag := pd.alarm_flag
     active_alarms := active_alarms pd.inverters
     debug_source := fb.2 })

/-- One iteration of `while True` as it affects `last_valid_total_wh`:
`none` models an exception raised by the device read (line 130), caught at
line 202 before any state change; `some pd` is a successful read followed by
the reconciliation body. -/
def runCycle (poll : Option PlantData) (last_valid_total_wh : Int) : Int :=
  match poll with
  | none => last_valid_total_wh
  | some pd => (reconcile pd last_valid_total_wh).1

/-- The loop run over a finite prefix of poll outcomes. -/
def runCycles (polls : List (Option PlantData)) (last_valid_total_wh : Int) : Int :=
  polls.foldl (fun s poll => runCycle poll s) last_valid_total_wh

/-- The `on_message` recovery handler (lines 69-86) as it affects
`last_valid_total_wh`: `parsed = none` models any exception while decoding
the retained message (`json.loads`, `int(...)`), caught at line 85 with the
state untouched; `some saved_total` is a successful parse. -/
def on_message (parsed : Option Int) (last_valid_total_wh : Int) : Int :=
  match parsed with
  | none => last_valid_total_wh
  | some saved_total =>
      if saved_total > last_valid_total_wh then saved_total else last_valid_total_wh

/-- Python truthiness of an environment variable: `os.getenv` yields `None`
when unset; `None` and the empty string are falsy in `all([...])` (line 90). -/
def truthy : Option String → Bool
  | none => false
  | some s => !(s == "")

/-- Digit-string accumulator for `pyInt?`. -/
def parseDigits : List Char → Nat → Option Nat
  | [], acc => some acc
  | c :: cs, acc =>
      if c.isDigit then parseDigits cs (acc * 10 + (c.toNat - 48)) else none

/-- Model of Python `int()` applied to a string: an optional minus sign
followed by at least one decimal digit; anything else raises `ValueError`,
modelled as `none`. -/
def pyInt? (s : String) : Option Int :=
  match s.data with
  | [] => none
  | '-' :: cs =>
      match cs with
      | [] => none
      | _ => (parseDigits cs 0).map (fun n => -(n : Int))
  | cs => (parseDigits cs 0).map (fun n => (n : Int))

/-- Python `int(os.getenv('MQTT_PORT'))` at line 30: `int(None)` raises
`TypeError`, `int` of a non-numeric string raises `ValueError`; both are
modelled as `none` (an uncaught startup exception). -/
def pyIntOfEnv : Option String → Option Int
  | none => none
  | some s => pyInt? s

/-- Outcome of module-level startup (lines 25-123). -/
inductive StartOutcome where
  /-- An unhandled exception at line 30 kills the process (non-zero exit). -/
  | crash : StartOutcome
  /-- The explicit `exit(1)` at line 92. -/
  | exitConfig : StartOutcome
  /-- Startup passes the configuration stage and proceeds towards the
  polling loop (the later MQTT connect attempt is external I/O). -/
  | proceed : StartOutcome
  deriving Repr, DecidableEq

/-- Module-level startup in source order: line 30 converts `MQTT_PORT` with
`int()` unconditionally; only then, at lines 89-92, is the
`ENABLE_MQTT`-guarded configuration check reached. -/
def startup (enable_mqtt : Bool)
    (mqtt_port mqtt_broker mqtt_user mqtt_pass topic_base : Option String) :
    StartOutcome :=
  match pyIntOfEnv mqtt_port with
  | none => StartOutcome.crash
  | some _ =>
      if enable_mqtt &&
          !(truthy mqtt_broker && truthy mqtt_user && truthy mqtt_pass &&
            truthy topic_base) then
        StartOutcome.exitConfig
      else
        StartOutcome.proceed

/-! ## Helper lemmas (shared) -/

/-- The new `last_valid_total_wh` after one reconciliation, as a single `if`. -/
theorem reconcile_fst (pd : PlantData) (s : Int) :
    (reconcile pd s).1 = if (fallback pd).1 < s then s else (fallback pd).1 := by
  simp only [reconcile, memory_check]
  split <;> rfl

/-- One reconciliation never decreases `last_valid_total_wh`. -/
theorem le_reconcile_fst (pd : PlantData) (s : Int) : s ≤ (reconcile pd s).1 := by
  rw [reconcile_fst]
  split <;> omega

end SolarBridge

namespace SolarBridge

/-- C1: fed any sequence of plant snapshots in order from any seeded value,
the sequence of values taken by `last_valid_total_wh` (its trace, including
the seed) is non-decreasing, and each cycle either leaves the value
unchanged or raises it to the selected candidate total. -/
theorem C1_last_valid_total_wh_monotone :
    (∀ (snaps : List PlantData) (s0 : Int),
        List.Chain' (fun a b => a ≤ b)
          (List.scanl (fun s pd => (reconcile pd s).1) s0 snaps)) ∧
    (∀ (pd : PlantData) (s : Int),
        (reconcile pd s).1 = s ∨ (reconcile pd s).1 = (fallback pd).1) := by
  constructor
  · intro snaps s0
    induction snaps generalizing s0 with
    | nil => simp
    | cons a l ih =>
        rw [List.scanl_cons, List.singleton_append]
        refine List.chain'_cons'.mpr ⟨?_, ih _⟩
        intro y hy
        have hy' : y = (reconcile a s0).1 := by
          cases l <;> simp_all [List.scanl]
        subst hy'
        exact le_reconcile_fst a s0
  · intro pd s
    rw [reconcile_fst]
    split
    · exact Or.inl rfl
    · exact Or.inr rfl

/-- Plain inverter record with the given power and total, no alarm. -/
def testInverter (p : ℚ) (t : Int) : InverterReading :=
  { serial_number := "SN"
    port_number := 1
    pv_power := p
    total_production := t
    alarm_code := 0
    alarm_count := 0
    operating_status := 0 }

/-- The glitch-absorption scenario: reported total 0, per-inverter totals
1000 and 2000. -/
def glitchSnapshot : PlantData :=
  { total_production := 0
    pv_power := 0
    alarm_flag := false
    inverters := [testInverter 0 1000, testInverter 0 2000] }

/-- C2 as stated is false: with `last_valid_total_wh = 5000`, reported total
`0` and per-inverter sum `3000`, the published total is indeed `5000`, but
`debug_source` is `"CALC"` — the guard overrides only the total, never the
source selection. -/
theorem C2_counterexample :
    (reconcile glitchSnapshot 5000).2.total_production_wh = 5000 ∧
    (reconcile glitchSnapshot 5000).2.debug_source = "CALC" := by
  constructor <;> rfl

/-- C2 amended: when the reported total is 0 and the calculated total is below
`last_valid_total_wh`, the published total and the state are frozen at
`last_valid_total_wh`, while the published `debug_source` remains
`"CALC"` (the guard applies post-selection to the value only). -/
theorem C2_glitch_absorption (pd : PlantData) (last : Int)
    (h0 : pd.total_production = 0) (hlt : calculated_total pd < last) :
    (reconcile pd last).2.total_production_wh = last ∧
    (reconcile pd last).1 = last ∧
    (reconcile pd last).2.debug_source = "CALC" := by
  have hfb : fallback pd = (calculated_total pd, "CALC") := by
    unfold fallback
    rw [h0]
    simp
  refine ⟨?_, ?_, ?_⟩ <;> simp [reconcile, memory_check, hfb, hlt]

/-- Closed instance of `C2_glitch_absorption` on `glitchSnapshot` and 5000. -/
theorem C2_glitch_absorption_witness :
    glitchSnapshot.total_production = 0 ∧
    calculated_total glitchSnapshot < 5000 ∧
    (reconcile glitchSnapshot 5000).2.total_production_wh = 5000 ∧
    (reconcile glitchSnapshot 5000).1 = 5000 :=
  ⟨rfl, by decide,
   (C2_glitch_absorption glitchSnapshot 5000 rfl (by decide)).1,
   (C2_glitch_absorption glitchSnapshot 5000 rfl (by decide)).2.1⟩

/-- C3: source selection — a positive reported total wins as `"DTU"`,
otherwise the per-inverter sum is selected as `"CALC"`. -/
theorem C3_total_source_selection (pd : PlantData) :
    (0 < pd.total_production →
        fallback pd = (pd.total_production, "DTU")) ∧
    (¬ 0 < pd.total_production →
        fallback pd = (calculated_total pd, "CALC")) := by
  constructor
  · intro h
    unfold fallback
    simp [h]
  · intro h
    unfold fallback
    simp [h]

/-- Snapshot with a positive reported total. -/
def dtuSnapshot : PlantData :=
  { total_production := 4000
    pv_power := 0
    alarm_flag := false
    inverters := [testInverter 0 1000, testInverter 0 2000] }

/-- Closed instances of `C3_total_source_selection`: reported 4000 selects
`"DTU"`; reported 0 over totals 1000 and 2000 selects 3000 as `"CALC"`. -/
theorem C3_total_source_selection_witness :
    (0 < (4000 : Int) ∧ fallback dtuSnapshot = (4000, "DTU")) ∧
    (¬ 0 < (0 : Int) ∧ fallback glitchSnapshot = (3000, "CALC")) :=
  ⟨⟨by decide, (C3_total_source_selection dtuSnapshot).1 (by decide)⟩,
   ⟨by decide, (C3_total_source_selection glitchSnapshot).2 (by decide)⟩⟩

/-- C4: the published `current_power_w` is the per-inverter power sum exactly
in the branch `reported power = 0 and sum > 0`; in every other case it is the
reported power. -/
theorem C4_power_source_selection (pd : PlantData) (last : Int) :
    ((pd.pv_power = 0 ∧ 0 < calc_power pd) →
        (reconcile pd last).2.current_power_w = calc_power pd) ∧
    (¬ (pd.pv_power = 0 ∧ 0 < calc_power pd) →
        (reconcile pd last).2.current_power_w = pd.pv_power) := by
  have hcur : (reconcile pd last).2.current_power_w
      = power_check pd.pv_power (calc_power pd) := by
    simp [reconcile]
  constructor
  · intro h
    rw [hcur]
    unfold power_check
    simp [h.1, h.2]
  · intro h
    rw [hcur]
    unfold power_check
    rw [if_neg]
    exact h

/-- Snapshot with reported power 0 and inverter powers 150 and 200. -/
def zeroPowerSnapshot : PlantData :=
  { total_production := 4000
    pv_power := 0
    alarm_flag := false
    inverters := [testInverter 150 1000, testInverter 200 2000] }

/-- Snapshot identical to `zeroPowerSnapshot` but with reported power 400. -/
def reportedPowerSnapshot : PlantData :=
  { zeroPowerSnapshot with pv_power := 400 }

/-- The inverter power sum of `zeroPowerSnapshot` evaluates to 350. -/
theorem calc_power_zeroPowerSnapshot : calc_power zeroPowerSnapshot = 350 := by
  norm_num [calc_power, zeroPowerSnapshot, testInverter]

/-- Closed instances of `C4_power_source_selection`: reported 0 with inverter
powers 150 and 200 publishes 350; reported 400 publishes 400. -/
theorem C4_power_source_selection_witness :
    ((zeroPowerSnapshot.pv_power = 0 ∧ 0 < calc_power zeroPowerSnapshot) ∧
        (reconcile zeroPowerSnapshot 0).2.current_power_w = 350) ∧
    (¬ (reportedPowerSnapshot.pv_power = 0 ∧ 0 < calc_power reportedPowerSnapshot) ∧
        (reconcile reportedPowerSnapshot 0).2.current_power_w = 400) := by
  have hza : zeroPowerSnapshot.pv_power = 0 ∧ 0 < calc_power zeroPowerSnapshot := by
    refine ⟨rfl, ?_⟩
    rw [calc_power_zeroPowerSnapshot]
    decide
  have hrb : ¬ (reportedPowerSnapshot.pv_power = 0 ∧
      0 < calc_power reportedPowerSnapshot) := by
    intro hc
    exact absurd hc.1 (by decide)
  refine ⟨⟨hza, ?_⟩, hrb, ?_⟩
  · rw [(C4_power_source_selection zeroPowerSnapshot 0).1 hza,
      calc_power_zeroPowerSnapshot]
  · rw [(C4_power_source_selection reportedPowerSnapshot 0).2 hrb]
    rfl

/-- C5: an equal candidate is not a glitch — when `current_total_wh` equals
`last_valid_total_wh` the glitch branch is skipped, the value is republished
and the state keeps the same value, and the glitch flag is raised exactly
when the candidate is strictly smaller. -/
theorem C5_equal_candidate_is_valid (current last : Int) :
    ((memory_check current last).2.2 = true ↔ current < last) ∧
    (current = last → memory_check current last = (last, last, false)) := by
  constructor
  · unfold memory_check
    split <;> simp_all
  · intro h
    subst h
    unfold memory_check
    simp

/-- Closed instance of `C5_equal_candidate_is_valid` at `current = last = 7`. -/
theorem C5_equal_candidate_is_valid_witness :
    (7 : Int) = 7 ∧ memory_check 7 7 = (7, 7, false) :=
  ⟨rfl, (C5_equal_candidate_is_valid 7 7).2 rfl⟩

/-- C6: `active_alarms` keeps exactly the inverters whose `alarm_code` is
positive, in device enumeration order, projected to alarm records; zero-code
inverters contribute nothing. -/
theorem C6_active_alarms_filter (invs : List InverterReading) :
    active_alarms invs =
      (invs.filter (fun inv => decide (0 < inv.alarm_code))).map
        (fun inv =>
          { serial_number := inv.serial_number
            port := inv.port_number
            alarm_code := inv.alarm_code
            operating_status := inv.operating_status }) := by
  induction invs with
  | nil => rfl
  | cons a l ih =>
      by_cases h : 0 < a.alarm_code
      · simp [active_alarms, h, ih]
      · simp [active_alarms, h, ih]

/-- C7: the recovery handler adopts the parsed retained total exactly on a
successful parse of a strictly greater value; a parse failure or a
not-greater value leaves `last_valid_total_wh` unchanged. -/
theorem C7_recovery_adoption (last : Int) :
    on_message none last = last ∧
    (∀ saved, last < saved → on_message (some saved) last = saved) ∧
    (∀ saved, ¬ last < saved → on_message (some saved) last = last) := by
  refine ⟨rfl, ?_, ?_⟩
  · intro saved h
    simp [on_message, h]
  · intro saved h
    simp [on_message, h]

/-- Closed instance of `C7_recovery_adoption`: a retained `12345` is adopted
over `0`, a retained `100` is ignored when memory already holds `500`. -/
theorem C7_recovery_adoption_witness :
    ((0 : Int) < 12345 ∧ on_message (some 12345) 0 = 12345) ∧
    (¬ (500 : Int) < 100 ∧ on_message (some 100) 500 = 500) :=
  ⟨⟨by decide, (C7_recovery_adoption 0).2.1 12345 (by decide)⟩,
   ⟨by decide, (C7_recovery_adoption 500).2.2 100 (by decide)⟩⟩

/-- C8: with publishing enabled, an absent broker, username, password or base
topic never lets startup proceed to the polling loop — it ends in the
explicit `exit(1)` configuration error, or (when the port variable is also
bad) in the earlier unhandled startup exception; both are non-zero exits. -/
theorem C8_missing_config_refuses_start
    (port broker user pass topic : Option String)
    (h : broker = none ∨ user = none ∨ pass = none ∨ topic = none) :
    startup true port broker user pass topic = StartOutcome.crash ∨
    startup true port broker user pass topic = StartOutcome.exitConfig := by
  unfold startup
  cases hp : pyIntOfEnv port with
  | none => exact Or.inl rfl
  | some n =>
      right
      rcases h with h | h | h | h <;> subst h <;> simp [truthy]

/-- Closed instance of `C8_missing_config_refuses_start`: enabled publishing
with a valid port but no broker variable does not reach the polling loop. -/
theorem C8_missing_config_refuses_start_witness :
    ((none : Option String) = none ∨ (some "u" : Option String) = none ∨
        (some "p" : Option String) = none ∨ (some "t" : Option String) = none) ∧
    (startup true (some "1883") none (some "u") (some "p") (some "t")
        = StartOutcome.crash ∨
      startup true (some "1883") none (some "u") (some "p") (some "t")
        = StartOutcome.exitConfig) :=
  ⟨Or.inl rfl,
   C8_missing_config_refuses_start (some "1883") none (some "u") (some "p")
     (some "t") (Or.inl rfl)⟩

/-- C10: `int(os.getenv('MQTT_PORT'))` runs before and independently of the
`ENABLE_MQTT` check, so an unset or non-numeric `MQTT_PORT` crashes startup
for every value of the enable flag — even disabled publishing, where a valid
port alone lets startup proceed with every other bus setting absent. -/
theorem C10_port_conversion_unconditional
    (enable : Bool) (broker user pass topic : Option String) :
    startup enable none broker user pass topic = StartOutcome.crash ∧
    (∀ s : String, pyInt? s = none →
        startup enable (some s) broker user pass topic = StartOutcome.crash) ∧
    startup false (some "1883") none none none none = StartOutcome.proceed := by
  refine ⟨rfl, ?_, rfl⟩
  intro s hs
  simp [startup, pyIntOfEnv, hs]

/-- Closed instance of `C10_port_conversion_unconditional`: publishing
disabled, `MQTT_PORT` unset or set to `"abc"` — startup still crashes. -/
theorem C10_port_conversion_unconditional_witness :
    startup false none none none none none = StartOutcome.crash ∧
    (pyInt? "abc" = none ∧
      startup false (some "abc") none none none none = StartOutcome.crash) :=
  ⟨(C10_port_conversion_unconditional false none none none none).1,
   rfl,
   (C10_port_conversion_unconditional false none none none none).2.1 "abc" rfl⟩

/-- C9: a failed device read (the `except` at line 202 catching line 130)
leaves `last_valid_total_wh` exactly as it was, and the loop carries that
pre-failure state into all subsequent cycles. -/
theorem C9_cycle_isolation (polls rest : List (Option PlantData)) (s0 : Int) :
    runCycle none (runCycles polls s0) = runCycles polls s0 ∧
    runCycles (polls ++ none :: rest) s0 = runCycles rest (runCycles polls s0) := by
  constructor
  · rfl
  · unfold runCycles
    rw [List.foldl_append, List.foldl_cons]
    rfl

end SolarBridge
